import Mathlib

/-!
Verification of the CEP-backend energy aggregation and reporting core.

The repository exposes the same domain through two router variants present in
the sources: a raw Mongo driver variant (`app/routers/energy.py`,
`app/routers/ai_recommendations.py`) and an ODM variant
(`app/routers/energy_mongo.py`).  The aggregation endpoints are Mongo
aggregation pipelines (`$match` / `$group` / `$sort`) over the set of stored
readings.  We embed each pipeline as a pure function over the already
`$match`-filtered list of readings, with floats modelled as rationals and
nullable fields as `Option`.
-/

namespace EnergyRouter

/-- A stored reading, as used by the raw-Mongo router `app/routers/energy.py`
(field names from `app/models/energy_data.py`, `EnergyDataBase`).  The
timestamp is represented by the calendar-day triple the daily pipeline
extracts from it (`$year`/`$month`/`$dayOfMonth`); `total_cost` is the
optional cost field (`$ifNull` treats a missing value as 0). -/
structure EnergyReading where
  device_id : Nat
  year : Nat
  month : Nat
  day : Nat
  power_consumption_watts : ℚ
  energy_consumption_kwh : ℚ
  energy_production_kwh : ℚ
  total_cost : Option ℚ
deriving DecidableEq, Repr

/-- The `EnergyStats` response model of `app/models/energy_data.py`:
`average_power_consumption` and `peak_power_consumption` are plain (non
optional) floats. -/
structure EnergyStats where
  total_energy_consumed : ℚ
  total_energy_produced : ℚ
  total_cost : ℚ
  average_power_consumption : ℚ
  peak_power_consumption : ℚ
  data_points_count : Nat
deriving DecidableEq, Repr

/-- The `$group` stage of `get_user_energy_stats` in
`app/routers/energy.py` applied to the `$match`-filtered reading set,
followed by the router's empty-result branch: when no reading matched, the
endpoint returns a stats object with every field equal to `0.0`
(`average_power_consumption=0.0`, `peak_power_consumption=0.0`).  On a
non-empty set: `$sum` of consumption and production, `$sum` of
`$ifNull [total_cost, 0]`, `$avg` and `$max` of the (required) power field,
and the document count. -/
def get_user_energy_stats (rs : List EnergyReading) : EnergyStats :=
  if rs.isEmpty then
    { total_energy_consumed := 0
      total_energy_produced := 0
      total_cost := 0
      average_power_consumption := 0
      peak_power_consumption := 0
      data_points_count := 0 }
  else
    { total_energy_consumed := (rs.map (·.energy_consumption_kwh)).sum
      total_energy_produced := (rs.map (·.energy_production_kwh)).sum
      total_cost := (rs.map (fun r => r.total_cost.getD 0)).sum
      average_power_consumption :=
        (rs.map (·.power_consumption_watts)).sum / (rs.length : ℚ)
      peak_power_consumption :=
        ((rs.map (·.power_consumption_watts)).max?).getD 0
      data_points_count := rs.length }

end EnergyRouter

namespace EnergyMongoRouter

/-- A stored reading for the ODM variant `app/routers/energy_mongo.py`
(field names used by its pipelines: `consumption_kwh`, `production_kwh`,
`cost_usd`, `power_watts`, `device_id`).  `cost_usd` and `power_watts` may be
absent; Mongo's `$sum`/`$avg`/`$max` skip absent values. -/
structure MongoReading where
  device_id : Nat
  consumption_kwh : ℚ
  production_kwh : ℚ
  cost_usd : Option ℚ
  power_watts : Option ℚ
  temperature_celsius : Option ℚ
deriving DecidableEq, Repr

/-- The stats payload built by `get_user_energy_stats` in
`app/routers/energy_mongo.py`: `average_power_watts` and `peak_power_watts`
are nullable. -/
structure EnergyStats where
  total_consumption_kwh : ℚ
  total_production_kwh : ℚ
  total_cost_usd : ℚ
  average_power_watts : Option ℚ
  peak_power_watts : Option ℚ
  device_count : Nat
deriving DecidableEq, Repr

/-- `get_user_energy_stats` of `app/routers/energy_mongo.py` applied to the
`$match`-filtered reading set: on an empty result the router builds
`stats_data` with sums `0.0`, `average_power_watts = None`,
`peak_power_watts = None` and `device_count = 0`; otherwise the `$group`
stage computes `$sum` of consumption/production/cost (absent cost values are
skipped by `$sum`), `$avg`/`$max` of `power_watts` (null when no document
carries the field) and `device_count` as the size of `$addToSet` of
`device_id`. -/
def get_user_energy_stats (rs : List MongoReading) : EnergyStats :=
  if rs.isEmpty then
    { total_consumption_kwh := 0
      total_production_kwh := 0
      total_cost_usd := 0
      average_power_watts := none
      peak_power_watts := none
      device_count := 0 }
  else
    let powers := rs.filterMap (·.power_watts)
    { total_consumption_kwh := (rs.map (·.consumption_kwh)).sum
      total_production_kwh := (rs.map (·.production_kwh)).sum
      total_cost_usd := (rs.filterMap (·.cost_usd)).sum
      average_power_watts :=
        if powers.isEmpty then none else some (powers.sum / (powers.length : ℚ))
      peak_power_watts := powers.max?
      device_count := ((rs.map (·.device_id)).dedup).length }

end EnergyMongoRouter

namespace AIRecommendationsRouter

open EnergyRouter

/-- The response of `compare_energy_usage` in
`app/routers/ai_recommendations.py` (`EnergyComparisonResponse` of
`app/schemas/energy.py`): all comparison fields are nullable and default to
`None`. -/
structure EnergyComparisonResponse where
  current_period : EnergyStats
  comparison_period : Option EnergyStats
  percentage_change : Option ℚ
  cost_savings : Option ℚ
  energy_savings : Option ℚ
deriving DecidableEq, Repr

/-- `compare_energy_usage` of `app/routers/ai_recommendations.py`.  Both
periods run the same `$group` pipeline as the stats endpoint, with the same
all-zero default dict when a period matches no readings.  `comparison` is
`none` when the request carries no comparison interval
(`comparison_start_date` / `comparison_end_date` absent).  The derived
fields are only assigned when `comparison_stats["total_energy_consumed"] > 0`;
otherwise they keep their initial `None`. -/
def compare_energy_usage (current : List EnergyReading)
    (comparison : Option (List EnergyReading)) : EnergyComparisonResponse :=
  let current_stats := get_user_energy_stats current
  match comparison with
  | none =>
      { current_period := current_stats
        comparison_period := none
        percentage_change := none
        cost_savings := none
        energy_savings := none }
  | some cs =>
      let comparison_stats := get_user_energy_stats cs
      if 0 < comparison_stats.total_energy_consumed then
        { current_period := current_stats
          comparison_period := some comparison_stats
          percentage_change := some
            ((current_stats.total_energy_consumed -
              comparison_stats.total_energy_consumed) /
              comparison_stats.total_energy_consumed * 100)
          cost_savings := some
            (comparison_stats.total_cost - current_stats.total_cost)
          energy_savings := some
            (comparison_stats.total_energy_consumed -
              current_stats.total_energy_consumed) }
      else
        { current_period := current_stats
          comparison_period := some comparison_stats
          percentage_change := none
          cost_savings := none
          energy_savings := none }

end AIRecommendationsRouter

/-- A sample reading consuming 80 kWh at cost 12 USD (recent period). -/
def sampleReading80 : EnergyRouter.EnergyReading :=
  { device_id := 1, year := 2024, month := 1, day := 8
    power_consumption_watts := 1800
    energy_consumption_kwh := 80
    energy_production_kwh := 0
    total_cost := some 12 }

/-- A sample reading consuming 100 kWh at cost 15 USD (prior period). -/
def sampleReading100 : EnergyRouter.EnergyReading :=
  { device_id := 1, year := 2024, month := 1, day := 1
    power_consumption_watts := 2000
    energy_consumption_kwh := 100
    energy_production_kwh := 0
    total_cost := some 15 }

/-- Readings on three distinct calendar days, deliberately out of order. -/
def sampleDayReadings : List EnergyRouter.EnergyReading :=
  [ { device_id := 1, year := 2024, month := 3, day := 5
      power_consumption_watts := 300, energy_consumption_kwh := 3
      energy_production_kwh := 0, total_cost := none }
  , { device_id := 1, year := 2024, month := 3, day := 3
      power_consumption_watts := 100, energy_consumption_kwh := 1
      energy_production_kwh := 0, total_cost := none }
  , { device_id := 2, year := 2024, month := 3, day := 4
      power_consumption_watts := 200, energy_consumption_kwh := 2
      energy_production_kwh := 0, total_cost := some 1 } ]

namespace EnergyRouter

/-- The composite `_id` the daily pipeline of `get_user_daily_stats`
(`app/routers/energy.py`) groups by: `$year`/`$month`/`$dayOfMonth` of the
timestamp. -/
def dayKey (r : EnergyReading) : Nat × Nat × Nat := (r.year, r.month, r.day)

/-- Mongo's ascending order on the composite `{year, month, day}` group ids
used by the `$sort {_id: 1}` stage: documents compare field by field in key
order, i.e. lexicographically. -/
def dayLt (a b : Nat × Nat × Nat) : Bool :=
  a.1 < b.1 ||
    (a.1 == b.1 && (a.2.1 < b.2.1 || (a.2.1 == b.2.1 && a.2.2 < b.2.2)))

/-- One `$group` accumulator document of the daily pipeline: running
`$sum`s of consumption, production and `$ifNull [total_cost, 0]`, the
`$avg` accumulator (kept as running sum and count) and the `$max`
accumulator for power. -/
structure DayAgg where
  day : Nat × Nat × Nat
  total_energy_consumed : ℚ
  total_energy_produced : ℚ
  total_cost : ℚ
  power_sum : ℚ
  peak_power : ℚ
  count : Nat
deriving DecidableEq, Repr

/-- Accumulator document opened by the first reading of a day. -/
def initAgg (r : EnergyReading) : DayAgg :=
  { day := dayKey r
    total_energy_consumed := r.energy_consumption_kwh
    total_energy_produced := r.energy_production_kwh
    total_cost := r.total_cost.getD 0
    power_sum := r.power_consumption_watts
    peak_power := r.power_consumption_watts
    count := 1 }

/-- Folding one more reading of the same day into its accumulator. -/
def addAgg (g : DayAgg) (r : EnergyReading) : DayAgg :=
  { g with
    total_energy_consumed := g.total_energy_consumed + r.energy_consumption_kwh
    total_energy_produced := g.total_energy_produced + r.energy_production_kwh
    total_cost := g.total_cost + r.total_cost.getD 0
    power_sum := g.power_sum + r.power_consumption_watts
    peak_power := max g.peak_power r.power_consumption_watts
    count := g.count + 1 }

/-- `$group` step for one reading: update the accumulator of the reading's
day, or open a new one if the day has no accumulator yet. -/
def addToGroups (gs : List DayAgg) (r : EnergyReading) : List DayAgg :=
  match gs with
  | [] => [initAgg r]
  | g :: rest =>
      if g.day = dayKey r then addAgg g r :: rest
      else g :: addToGroups rest r

/-- The `$group` stage of the daily pipeline over the `$match`-filtered
reading set: one accumulator document per distinct calendar day. -/
def groupByDay (rs : List EnergyReading) : List DayAgg :=
  rs.foldl addToGroups []

/-- Insertion step of the `$sort {_id: 1}` stage. -/
def insertAgg (g : DayAgg) (l : List DayAgg) : List DayAgg :=
  match l with
  | [] => [g]
  | x :: xs => if dayLt g.day x.day then g :: x :: xs else x :: insertAgg g xs

/-- The `$sort {_id: 1}` stage: order the group documents ascending by
their composite day id. -/
def sortAggs (l : List DayAgg) : List DayAgg :=
  l.foldr insertAgg []

/-- One element of the `List[DailyEnergyStats]` response of
`get_user_daily_stats` (`app/models/energy_data.py`).  The
`date` string `f"{year}-{month:02d}-{day:02d}"` is represented by the day
triple it zero-pads. -/
structure DailyEnergyStats where
  day : Nat × Nat × Nat
  total_energy_consumed : ℚ
  total_energy_produced : ℚ
  total_cost : ℚ
  average_power_consumption : ℚ
  peak_power_consumption : ℚ
deriving DecidableEq, Repr

/-- Response formatting of one group document: `$avg` is the accumulated
power sum over the document count. -/
def toDailyStats (g : DayAgg) : DailyEnergyStats :=
  { day := g.day
    total_energy_consumed := g.total_energy_consumed
    total_energy_produced := g.total_energy_produced
    total_cost := g.total_cost
    average_power_consumption := g.power_sum / (g.count : ℚ)
    peak_power_consumption := g.peak_power }

/-- `get_user_daily_stats` of `app/routers/energy.py`: `$match` (done by the
caller), `$group` by calendar day, `$sort {_id: 1}`, then the per-bucket
response rows. -/
def get_user_daily_stats (rs : List EnergyReading) : List DailyEnergyStats :=
  (sortAggs (groupByDay rs)).map toDailyStats

/-- Sum of the consumption accumulated for day `d` across a group list
(proof-side helper). -/
def dayTotal (d : Nat × Nat × Nat) (gs : List DayAgg) : ℚ :=
  ((gs.filter (fun g => g.day == d)).map (·.total_energy_consumed)).sum

end EnergyRouter

namespace EnergyRouter

/-- A stored device document (`DeviceInDB` of `app/models/devices.py`):
profile fields plus the denormalized rolling counters maintained by
`create_energy_data`.  The free-form `specifications` JSON object is
modelled as an association list of strings. -/
structure DeviceDoc where
  user_id : Nat
  name : String
  device_type : String
  location : Option String
  manufacturer : Option String
  model : Option String
  power_rating_watts : Option ℚ
  is_smart_device : Bool
  is_active : Bool
  specifications : Option (List (String × String))
  last_energy_reading : Option Nat
  total_energy_consumed : ℚ
  total_energy_produced : ℚ
  current_power_draw : ℚ
  updated_at : Nat
deriving DecidableEq, Repr

/-- The `EnergyDataCreate` payload (`app/models/energy_data.py`): every
numeric field is a plain `float` (or `Optional[float]`) with no `ge`/`le`
constraint, so any well-typed value — negative consumption, production or
cost, humidity outside [0, 100] — passes model validation unchanged. -/
structure EnergyDataCreate where
  power_consumption_watts : ℚ
  energy_consumption_kwh : ℚ
  energy_production_kwh : ℚ
  humidity : Option ℚ
  total_cost : Option ℚ
  timestamp : Nat
deriving DecidableEq, Repr

/-- What a successful `create_energy_data` call leaves behind: the inserted
row and the updated rolling counters on the device and its owning user. -/
structure CreateEnergyDataOutcome where
  stored : EnergyDataCreate
  device : DeviceDoc
  user_total_energy_consumed : ℚ
  user_total_energy_produced : ℚ
deriving DecidableEq, Repr

/-- `create_energy_data` of `app/routers/energy.py`: 404 when the device
does not exist; otherwise the payload is inserted as-is (the Pydantic model
performs no range validation), the device counters are incremented by the
payload's consumption/production, `current_power_draw` and
`last_energy_reading` are overwritten, and the user counters are
incremented likewise. -/
def create_energy_data (device : Option DeviceDoc)
    (user_total_consumed user_total_produced : ℚ)
    (p : EnergyDataCreate) : Except (Nat × String) CreateEnergyDataOutcome :=
  match device with
  | none => Except.error (404, "Device not found")
  | some d =>
      Except.ok
        { stored := p
          device :=
            { d with
              total_energy_consumed :=
                d.total_energy_consumed + p.energy_consumption_kwh
              total_energy_produced :=
                d.total_energy_produced + p.energy_production_kwh
              current_power_draw := p.power_consumption_watts
              last_energy_reading := some p.timestamp }
          user_total_energy_consumed :=
            user_total_consumed + p.energy_consumption_kwh
          user_total_energy_produced :=
            user_total_produced + p.energy_production_kwh }

/-- A stored user document (`UserInDB` of `app/models/users.py`), restricted
to the fields `update_user` can touch plus `updated_at`. -/
structure UserDoc where
  username : String
  email : String
  full_name : String
  energy_goal_kwh : Option ℚ
  preferred_energy_source : Option String
  notifications_enabled : Bool
  timezone : String
  updated_at : Nat
deriving DecidableEq, Repr

/-- `UserUpdate` (`app/models/users.py`) under Pydantic's `exclude_unset`
semantics: the outer `Option` is "field present in the payload"; for the
optional-typed fields the inner `Option` is the transmitted value. -/
structure UserUpdate where
  username : Option String
  email : Option String
  full_name : Option String
  energy_goal_kwh : Option (Option ℚ)
  preferred_energy_source : Option (Option String)
  notifications_enabled : Option Bool
  timezone : Option String
deriving DecidableEq, Repr

/-- The `$set` issued by `update_user`: the provided payload fields plus
`updated_at = now`. -/
def applyUserUpdate (u : UserDoc) (p : UserUpdate) (now : Nat) : UserDoc :=
  { username := p.username.getD u.username
    email := p.email.getD u.email
    full_name := p.full_name.getD u.full_name
    energy_goal_kwh := p.energy_goal_kwh.getD u.energy_goal_kwh
    preferred_energy_source :=
      p.preferred_energy_source.getD u.preferred_energy_source
    notifications_enabled :=
      p.notifications_enabled.getD u.notifications_enabled
    timezone := p.timezone.getD u.timezone
    updated_at := now }

/-- `update_user` of `app/routers/energy.py`: 404 when the user does not
exist; otherwise `update_one` applies the `$set` and reports
`modified_count = 0` exactly when the document is left unchanged, which the
router turns into HTTP 400 "No changes made"; otherwise the updated user is
returned. -/
def update_user (stored : Option UserDoc) (p : UserUpdate) (now : Nat) :
    Except (Nat × String) UserDoc :=
  match stored with
  | none => Except.error (404, "User not found")
  | some u =>
      let updated := applyUserUpdate u p now
      if updated = u then Except.error (400, "No changes made")
      else Except.ok updated

/-- `DeviceUpdate` (`app/models/devices.py`) under `exclude_unset`
semantics, as for `UserUpdate`. -/
structure DeviceUpdate where
  name : Option String
  device_type : Option String
  location : Option (Option String)
  manufacturer : Option (Option String)
  model : Option (Option String)
  power_rating_watts : Option (Option ℚ)
  is_smart_device : Option Bool
  is_active : Option Bool
  specifications : Option (Option (List (String × String)))
deriving DecidableEq, Repr

/-- The `$set` issued by `update_device`: the provided payload fields plus
`updated_at = now`; counters are untouched. -/
def applyDeviceUpdate (d : DeviceDoc) (p : DeviceUpdate) (now : Nat) : DeviceDoc :=
  { d with
    name := p.name.getD d.name
    device_type := p.device_type.getD d.device_type
    location := p.location.getD d.location
    manufacturer := p.manufacturer.getD d.manufacturer
    model := p.model.getD d.model
    power_rating_watts := p.power_rating_watts.getD d.power_rating_watts
    is_smart_device := p.is_smart_device.getD d.is_smart_device
    is_active := p.is_active.getD d.is_active
    specifications := p.specifications.getD d.specifications
    updated_at := now }

/-- `update_device` of `app/routers/energy.py`, same shape as
`update_user`. -/
def update_device (stored : Option DeviceDoc) (p : DeviceUpdate) (now : Nat) :
    Except (Nat × String) DeviceDoc :=
  match stored with
  | none => Except.error (404, "Device not found")
  | some d =>
      let updated := applyDeviceUpdate d p now
      if updated = d then Except.error (400, "No changes made")
      else Except.ok updated

end EnergyRouter

namespace OpenAIService

/-- The bounded device metadata the recommendation context carries. -/
structure DeviceInfo where
  name : String
  device_type : String
deriving DecidableEq, Repr

/-- The parsed shape of a recommendation payload
(`app/services/openai_service.py`): list of recommendation strings, savings
estimates, efficiency score, per-device tip mapping. -/
structure RecommendationResult where
  recommendations : List String
  energy_savings_potential : String
  cost_savings_potential : String
  efficiency_score : ℚ
  device_specific_tips : List (String × List String)
deriving DecidableEq, Repr

/-- Per-device entries built by `_get_fallback_recommendations`:
hand-authored tips for the hvac / lighting / appliance categories, no entry
for any other category. -/
def fallbackTipsFor (d : DeviceInfo) : Option (String × List String) :=
  if d.device_type = "hvac" then
    some (d.name,
      [ "Clean or replace air filters monthly"
      , "Schedule regular HVAC maintenance"
      , "Consider upgrading to a more efficient model if over 10 years old" ])
  else if d.device_type = "lighting" then
    some (d.name,
      [ "Use motion sensors for automatic control"
      , "Install dimmer switches for flexible lighting"
      , "Consider smart lighting controls" ])
  else if d.device_type = "appliance" then
    some (d.name,
      [ "Run full loads only"
      , "Use energy-saving modes when available"
      , "Clean regularly for optimal performance" ])
  else none

/-- `_get_fallback_recommendations` of `app/services/openai_service.py`:
five static recommendation strings, fixed savings estimates, efficiency
score 75, and the per-category device tips. -/
def get_fallback_recommendations (devices : List DeviceInfo) :
    RecommendationResult :=
  { recommendations :=
      [ "Set your thermostat to 68°F in winter and 78°F in summer for optimal energy efficiency"
      , "Replace traditional light bulbs with LED bulbs to reduce lighting energy consumption by up to 80%"
      , "Unplug devices when not in use to eliminate phantom energy consumption"
      , "Use power strips to easily turn off multiple devices at once"
      , "Consider installing a smart thermostat for better temperature control" ]
    energy_savings_potential := "15-25%"
    cost_savings_potential := "$50-100 per month"
    efficiency_score := 75
    device_specific_tips := devices.filterMap fallbackTipsFor }

/-- `get_energy_recommendations` of `app/services/openai_service.py`:
with no client (`OPENAI_API_KEY` unset or initialization failed) it falls
back immediately; with a client, the external call's parsed JSON is
returned when it succeeds, and any exception or JSON parse failure falls
back.  `ai_response = none` models both failure modes of the external
call, so the function always returns a payload and never propagates the
failure. -/
def get_energy_recommendations (client_available : Bool)
    (ai_response : Option RecommendationResult)
    (devices : List DeviceInfo) : RecommendationResult :=
  if !client_available then get_fallback_recommendations devices
  else
    match ai_response with
    | some r => r
    | none => get_fallback_recommendations devices

end OpenAIService

namespace AIRecommendationsRouter

/-- Inputs of the per-device efficiency computation in
`get_user_efficiency_report` (`app/routers/ai_recommendations.py`): the
device document's `power_rating_watts` entry and the `$avg` power of its
last-30-days readings (0 when it has none).  The entry is three-valued:
`none` when the key is absent from the document (possible only for rows
created outside the API), `some none` when the stored value is JSON null —
which is what `create_device` writes for an unrated device, since
`device.dict()` serializes unset optional fields as `None` — and
`some (some q)` for a numeric rating. -/
structure DeviceEfficiencyInput where
  power_rating_watts : Option (Option ℚ)
  average_power : ℚ
deriving DecidableEq, Repr

/-- `device.get("power_rating_watts", 0)`: the default 0 applies only when
the key is absent; a stored null is returned as Python `None`. -/
def powerRatingGet (dev : DeviceEfficiencyInput) : Option ℚ :=
  match dev.power_rating_watts with
  | none => some 0
  | some v => v

/-- The per-device `efficiency_score` of `get_user_efficiency_report`.
With a numeric `power_rating`: 0 unless the rating is positive, otherwise
`min(100, max(0, (power_rating − average_power) / power_rating * 100))`.
When `device.get` returned `None`, the comparison `None > 0` raises
`TypeError`, which the endpoint's generic handler converts to HTTP 500. -/
def efficiency_score (dev : DeviceEfficiencyInput) : Except (Nat × String) ℚ :=
  match powerRatingGet dev with
  | none => Except.error (500, "Internal server error")
  | some power_rating =>
      Except.ok
        (if 0 < power_rating then
          min 100 (max 0
            ((power_rating - dev.average_power) / power_rating * 100))
        else 0)

/-- The report's per-device loop: the scores of all devices in order; the
first `TypeError` aborts the whole request. -/
def device_scores (devices : List DeviceEfficiencyInput) :
    Except (Nat × String) (List ℚ) :=
  match devices with
  | [] => Except.ok []
  | dev :: rest =>
      match efficiency_score dev with
      | Except.error e => Except.error e
      | Except.ok s =>
          match device_scores rest with
          | Except.error e => Except.error e
          | Except.ok ss => Except.ok (s :: ss)

/-- The report's `overall_efficiency_score`: the arithmetic mean of the
per-device scores, 0 when the user has no devices; unavailable when the
loop raised. -/
def overall_efficiency_score (devices : List DeviceEfficiencyInput) :
    Except (Nat × String) ℚ :=
  match device_scores devices with
  | Except.error e => Except.error e
  | Except.ok scores =>
      Except.ok
        (if scores.isEmpty then 0
        else scores.sum / (scores.length : ℚ))

end AIRecommendationsRouter

/-- A stored device owned by user 1, rolling counters at 10/0/0. -/
def sampleDevice : EnergyRouter.DeviceDoc :=
  { user_id := 1, name := "Living Room AC", device_type := "hvac"
    location := none, manufacturer := none, model := none
    power_rating_watts := some 2000, is_smart_device := true
    is_active := true, specifications := none, last_energy_reading := none
    total_energy_consumed := 10, total_energy_produced := 0
    current_power_draw := 0, updated_at := 7 }

/-- A reading payload violating the non-negativity invariant: negative
consumption and cost, humidity above 100. -/
def negativePayload : EnergyRouter.EnergyDataCreate :=
  { power_consumption_watts := 50
    energy_consumption_kwh := -5
    energy_production_kwh := 0
    humidity := some 150
    total_cost := some (-2)
    timestamp := 1000 }

/-- A stored user whose `updated_at` is 7. -/
def sampleUser : EnergyRouter.UserDoc :=
  { username := "demo_user", email := "demo@energyapp.com"
    full_name := "Demo User", energy_goal_kwh := some 300
    preferred_energy_source := some "mixed", notifications_enabled := true
    timezone := "UTC", updated_at := 7 }

/-- A user-update payload carrying no fields. -/
def emptyUserUpdate : EnergyRouter.UserUpdate :=
  { username := none, email := none, full_name := none
    energy_goal_kwh := none, preferred_energy_source := none
    notifications_enabled := none, timezone := none }

/-- A device-update payload carrying no fields. -/
def emptyDeviceUpdate : EnergyRouter.DeviceUpdate :=
  { name := none, device_type := none, location := none
    manufacturer := none, model := none, power_rating_watts := none
    is_smart_device := none, is_active := none, specifications := none }

namespace EnergyMongoRouter

/-- `$sum` over an optional field equals the sum with absent values read
as 0. -/
theorem sum_filterMap_cost (rs : List MongoReading) :
    (rs.filterMap (·.cost_usd)).sum = (rs.map (fun r => r.cost_usd.getD 0)).sum := by
  induction rs with
  | nil => rfl
  | cons r rs ih =>
    cases h : r.cost_usd <;>
      simp [List.filterMap_cons, h, ih]

end EnergyMongoRouter

/-- Claim C1 (code bug in the raw-Mongo variant): on an empty filtered
reading set both variants return all sums 0 and zero counts, but the
raw-Mongo `get_user_energy_stats` returns `average_power_consumption = 0.0`
and `peak_power_consumption = 0.0` where the specification demands null;
the ODM variant returns `None` for both as specified. -/
theorem empty_stats_zero_not_null :
    (EnergyRouter.get_user_energy_stats []).average_power_consumption = 0 ∧
    (EnergyRouter.get_user_energy_stats []).peak_power_consumption = 0 ∧
    (EnergyRouter.get_user_energy_stats []).total_energy_consumed = 0 ∧
    (EnergyRouter.get_user_energy_stats []).total_energy_produced = 0 ∧
    (EnergyRouter.get_user_energy_stats []).total_cost = 0 ∧
    (EnergyRouter.get_user_energy_stats []).data_points_count = 0 ∧
    (EnergyMongoRouter.get_user_energy_stats []).average_power_watts = none ∧
    (EnergyMongoRouter.get_user_energy_stats []).peak_power_watts = none ∧
    (EnergyMongoRouter.get_user_energy_stats []).total_consumption_kwh = 0 ∧
    (EnergyMongoRouter.get_user_energy_stats []).total_production_kwh = 0 ∧
    (EnergyMongoRouter.get_user_energy_stats []).total_cost_usd = 0 ∧
    (EnergyMongoRouter.get_user_energy_stats []).device_count = 0 :=
  ⟨rfl, rfl, rfl, rfl, rfl, rfl, rfl, rfl, rfl, rfl, rfl, rfl⟩

/-- Claim C2 (counterexample): with a supplied comparison period whose total
consumption is 0 (here: no readings in the prior interval), the returned
`percentage_change` is `None` — the omitted/null value the claim rules out —
rather than 0. -/
theorem prior_zero_percentage_change_is_none :
    (AIRecommendationsRouter.compare_energy_usage [sampleReading80]
        (some [])).percentage_change = none ∧
    (AIRecommendationsRouter.compare_energy_usage [sampleReading80]
        (some [])).percentage_change ≠ some 0 := by
  constructor
  · simp [AIRecommendationsRouter.compare_energy_usage,
      EnergyRouter.get_user_energy_stats]
  · simp [AIRecommendationsRouter.compare_energy_usage,
      EnergyRouter.get_user_energy_stats]

/-- Claim C2 (amended): when the comparison period's total consumption is 0,
`compare_energy_usage` still succeeds and returns the comparison period
stats, but `percentage_change`, `cost_savings` and `energy_savings` are all
null/omitted — not 0, not an error, not infinity. -/
theorem prior_zero_comparison_fields_null
    (current cs : List EnergyRouter.EnergyReading)
    (h : (EnergyRouter.get_user_energy_stats cs).total_energy_consumed = 0) :
    (AIRecommendationsRouter.compare_energy_usage current (some cs)).comparison_period
        = some (EnergyRouter.get_user_energy_stats cs) ∧
    (AIRecommendationsRouter.compare_energy_usage current (some cs)).percentage_change
        = none ∧
    (AIRecommendationsRouter.compare_energy_usage current (some cs)).cost_savings
        = none ∧
    (AIRecommendationsRouter.compare_energy_usage current (some cs)).energy_savings
        = none := by
  simp [AIRecommendationsRouter.compare_energy_usage, h]

/-- Witness for the amended claim C2 at a concrete input. -/
theorem prior_zero_comparison_fields_null_witness :
    (AIRecommendationsRouter.compare_energy_usage [sampleReading80]
        (some [])).percentage_change = none ∧
    (AIRecommendationsRouter.compare_energy_usage [sampleReading80]
        (some [])).cost_savings = none ∧
    (AIRecommendationsRouter.compare_energy_usage [sampleReading80]
        (some [])).energy_savings = none := by
  have h := prior_zero_comparison_fields_null [sampleReading80] [] rfl
  exact ⟨h.2.1, h.2.2.1, h.2.2.2⟩

/-- Claim C3: with a comparison period of positive total consumption,
`percentage_change = (recent − prior) / prior × 100`,
`energy_savings = prior.total_consumption − recent.total_consumption` and
`cost_savings = prior.total_cost − recent.total_cost`. -/
theorem comparison_formulas_correct
    (current cs : List EnergyRouter.EnergyReading)
    (h : 0 < (EnergyRouter.get_user_energy_stats cs).total_energy_consumed) :
    (AIRecommendationsRouter.compare_energy_usage current (some cs)).percentage_change
        = some (((EnergyRouter.get_user_energy_stats current).total_energy_consumed -
            (EnergyRouter.get_user_energy_stats cs).total_energy_consumed) /
            (EnergyRouter.get_user_energy_stats cs).total_energy_consumed * 100) ∧
    (AIRecommendationsRouter.compare_energy_usage current (some cs)).energy_savings
        = some ((EnergyRouter.get_user_energy_stats cs).total_energy_consumed -
            (EnergyRouter.get_user_energy_stats current).total_energy_consumed) ∧
    (AIRecommendationsRouter.compare_energy_usage current (some cs)).cost_savings
        = some ((EnergyRouter.get_user_energy_stats cs).total_cost -
            (EnergyRouter.get_user_energy_stats current).total_cost) := by
  simp [AIRecommendationsRouter.compare_energy_usage, h]

/-- Witness for claim C3: recent 80 kWh vs prior 100 kWh gives
`percentage_change = -20.0` and `energy_savings = 20.0` (and
`cost_savings = 3.0` from costs 15 vs 12). -/
theorem comparison_formulas_correct_witness :
    (AIRecommendationsRouter.compare_energy_usage [sampleReading80]
        (some [sampleReading100])).percentage_change = some (-20) ∧
    (AIRecommendationsRouter.compare_energy_usage [sampleReading80]
        (some [sampleReading100])).energy_savings = some 20 ∧
    (AIRecommendationsRouter.compare_energy_usage [sampleReading80]
        (some [sampleReading100])).cost_savings = some 3 := by
  have h := comparison_formulas_correct [sampleReading80] [sampleReading100]
    (by norm_num [EnergyRouter.get_user_energy_stats, sampleReading100])
  rcases h with ⟨h1, h2, h3⟩
  rw [h1, h2, h3]
  norm_num [EnergyRouter.get_user_energy_stats, sampleReading80, sampleReading100]

/-- Claim C4: when no comparison interval is supplied, `comparison_period`,
`percentage_change`, `cost_savings` and `energy_savings` are all null, not
zero. -/
theorem no_comparison_interval_fields_null
    (current : List EnergyRouter.EnergyReading) :
    (AIRecommendationsRouter.compare_energy_usage current none).comparison_period
        = none ∧
    (AIRecommendationsRouter.compare_energy_usage current none).percentage_change
        = none ∧
    (AIRecommendationsRouter.compare_energy_usage current none).cost_savings
        = none ∧
    (AIRecommendationsRouter.compare_energy_usage current none).energy_savings
        = none :=
  ⟨rfl, rfl, rfl, rfl⟩

/-- Claim C8: for every reading set handed to the period-statistics
aggregation, the returned totals are exactly the sums over the set —
consumption, production, and cost with absent cost read as 0 — in both the
raw-Mongo and the ODM variants. -/
theorem stats_totals_are_sums (rs : List EnergyRouter.EnergyReading)
    (ms : List EnergyMongoRouter.MongoReading) :
    (EnergyRouter.get_user_energy_stats rs).total_energy_consumed
        = (rs.map (·.energy_consumption_kwh)).sum ∧
    (EnergyRouter.get_user_energy_stats rs).total_energy_produced
        = (rs.map (·.energy_production_kwh)).sum ∧
    (EnergyRouter.get_user_energy_stats rs).total_cost
        = (rs.map (fun r => r.total_cost.getD 0)).sum ∧
    (EnergyMongoRouter.get_user_energy_stats ms).total_consumption_kwh
        = (ms.map (·.consumption_kwh)).sum ∧
    (EnergyMongoRouter.get_user_energy_stats ms).total_production_kwh
        = (ms.map (·.production_kwh)).sum ∧
    (EnergyMongoRouter.get_user_energy_stats ms).total_cost_usd
        = (ms.map (fun r => r.cost_usd.getD 0)).sum := by
  by_cases hr : rs.isEmpty <;> by_cases hm : ms.isEmpty <;>
    simp_all [EnergyRouter.get_user_energy_stats,
      EnergyMongoRouter.get_user_energy_stats, List.isEmpty_iff,
      EnergyMongoRouter.sum_filterMap_cost]

namespace EnergyRouter

/-- Unfolding of the lexicographic day order. -/
theorem dayLt_iff (a b : Nat × Nat × Nat) :
    dayLt a b = true ↔
      a.1 < b.1 ∨ (a.1 = b.1 ∧ (a.2.1 < b.2.1 ∨ (a.2.1 = b.2.1 ∧ a.2.2 < b.2.2))) := by
  simp [dayLt]

theorem dayLt_trans {a b c : Nat × Nat × Nat} (h1 : dayLt a b = true)
    (h2 : dayLt b c = true) : dayLt a c = true := by
  rw [dayLt_iff] at h1 h2 ⊢
  omega

theorem dayLt_total (a b : Nat × Nat × Nat) :
    a = b ∨ dayLt a b = true ∨ dayLt b a = true := by
  rcases a with ⟨a1, a2, a3⟩
  rcases b with ⟨b1, b2, b3⟩
  simp only [dayLt_iff, Prod.ext_iff]
  omega

theorem insertAgg_perm (g : DayAgg) (l : List DayAgg) :
    List.Perm (insertAgg g l) (g :: l) := by
  induction l with
  | nil => simp [insertAgg]
  | cons x xs ih =>
    simp only [insertAgg]
    by_cases h : dayLt g.day x.day = true
    · rw [if_pos h]
    · rw [if_neg h]
      exact (List.Perm.cons x ih).trans (List.Perm.swap g x xs)

theorem sortAggs_perm (l : List DayAgg) : List.Perm (sortAggs l) l := by
  induction l with
  | nil => simp [sortAggs]
  | cons x xs ih =>
    have hs : sortAggs (x :: xs) = insertAgg x (sortAggs xs) := rfl
    rw [hs]
    exact (insertAgg_perm x (sortAggs xs)).trans (List.Perm.cons x ih)

theorem mem_insertAgg {y g : DayAgg} {l : List DayAgg} :
    y ∈ insertAgg g l ↔ y = g ∨ y ∈ l := by
  rw [(insertAgg_perm g l).mem_iff, List.mem_cons]

theorem insertAgg_pairwise (g : DayAgg) (l : List DayAgg)
    (hl : l.Pairwise (fun x y => dayLt x.day y.day = true))
    (hne : ∀ x ∈ l, g.day ≠ x.day) :
    (insertAgg g l).Pairwise (fun x y => dayLt x.day y.day = true) := by
  induction l with
  | nil => simp [insertAgg]
  | cons x xs ih =>
    rw [List.pairwise_cons] at hl
    simp only [insertAgg]
    by_cases h : dayLt g.day x.day = true
    · rw [if_pos h]
      refine List.Pairwise.cons ?_ (List.Pairwise.cons hl.1 hl.2)
      intro y hy
      rcases List.mem_cons.mp hy with rfl | hy
      · exact h
      · exact dayLt_trans h (hl.1 y hy)
    · rw [if_neg h]
      have hxg : dayLt x.day g.day = true := by
        rcases dayLt_total g.day x.day with heq | hlt | hgt
        · exact absurd heq (hne x (List.mem_cons_self x xs))
        · exact absurd hlt h
        · exact hgt
      refine List.Pairwise.cons ?_
        (ih hl.2 fun y hy => hne y (List.mem_cons_of_mem x hy))
      intro y hy
      rcases mem_insertAgg.mp hy with rfl | hy
      · exact hxg
      · exact hl.1 y hy

theorem sortAggs_pairwise (l : List DayAgg) (h : (l.map (·.day)).Nodup) :
    (sortAggs l).Pairwise (fun x y => dayLt x.day y.day = true) := by
  induction l with
  | nil => simp [sortAggs]
  | cons g xs ih =>
    rw [List.map_cons, List.nodup_cons] at h
    have hs : sortAggs (g :: xs) = insertAgg g (sortAggs xs) := rfl
    rw [hs]
    refine insertAgg_pairwise g (sortAggs xs) (ih h.2) ?_
    intro x hx heq
    exact h.1 (by rw [heq]; exact List.mem_map_of_mem _ ((sortAggs_perm xs).subset hx))

theorem addAgg_day (g : DayAgg) (r : EnergyReading) : (addAgg g r).day = g.day := rfl

theorem mem_days_addToGroups {gs : List DayAgg} {r : EnergyReading}
    {d : Nat × Nat × Nat} :
    d ∈ (addToGroups gs r).map (·.day) ↔
      d ∈ gs.map (·.day) ∨ d = dayKey r := by
  induction gs with
  | nil => simp [addToGroups, initAgg]
  | cons g rest ih =>
    simp only [addToGroups]
    by_cases h : g.day = dayKey r
    · rw [if_pos h]
      simp only [List.map_cons, List.mem_cons, addAgg_day, h]
      tauto
    · rw [if_neg h]
      simp only [List.map_cons, List.mem_cons, ih]
      tauto

theorem mem_days_foldl (rs : List EnergyReading) (acc : List DayAgg)
    (d : Nat × Nat × Nat) :
    d ∈ (rs.foldl addToGroups acc).map (·.day) ↔
      d ∈ acc.map (·.day) ∨ ∃ r ∈ rs, d = dayKey r := by
  induction rs generalizing acc with
  | nil => simp
  | cons r rest ih =>
    rw [List.foldl_cons, ih, mem_days_addToGroups]
    simp only [List.mem_cons, exists_eq_or_imp]
    tauto

theorem nodup_days_addToGroups {gs : List DayAgg} (r : EnergyReading)
    (h : (gs.map (·.day)).Nodup) : ((addToGroups gs r).map (·.day)).Nodup := by
  induction gs with
  | nil => simp [addToGroups]
  | cons g rest ih =>
    rw [List.map_cons, List.nodup_cons] at h
    simp only [addToGroups]
    by_cases hd : g.day = dayKey r
    · rw [if_pos hd, List.map_cons, List.nodup_cons, addAgg_day]
      exact ⟨h.1, h.2⟩
    · rw [if_neg hd, List.map_cons, List.nodup_cons]
      refine ⟨?_, ih h.2⟩
      intro hmem
      rcases mem_days_addToGroups.mp hmem with hmem | heq
      · exact h.1 hmem
      · exact hd heq

theorem nodup_days_foldl (rs : List EnergyReading) (acc : List DayAgg)
    (h : (acc.map (·.day)).Nodup) :
    ((rs.foldl addToGroups acc).map (·.day)).Nodup := by
  induction rs generalizing acc with
  | nil => exact h
  | cons r rest ih =>
    rw [List.foldl_cons]
    exact ih (addToGroups acc r) (nodup_days_addToGroups r h)

theorem dayTotal_nil (d : Nat × Nat × Nat) : dayTotal d [] = 0 := rfl

theorem dayTotal_cons (g : DayAgg) (l : List DayAgg) (d : Nat × Nat × Nat) :
    dayTotal d (g :: l) =
      (if g.day = d then g.total_energy_consumed else 0) + dayTotal d l := by
  by_cases h : g.day = d <;> simp [dayTotal, List.filter_cons, h]

theorem dayTotal_addToGroups (gs : List DayAgg) (r : EnergyReading)
    (d : Nat × Nat × Nat) :
    dayTotal d (addToGroups gs r) =
      dayTotal d gs + (if dayKey r = d then r.energy_consumption_kwh else 0) := by
  induction gs with
  | nil =>
    by_cases h : dayKey r = d <;>
      simp [addToGroups, dayTotal_cons, dayTotal_nil, initAgg, h]
  | cons g rest ih =>
    simp only [addToGroups]
    by_cases hgr : g.day = dayKey r
    · rw [if_pos hgr, dayTotal_cons, dayTotal_cons]
      simp only [addAgg]
      by_cases hd : dayKey r = d
      · have h1 : g.day = d := hgr.trans hd
        simp only [if_pos h1, if_pos hd]
        ring
      · have h1 : ¬ g.day = d := fun hh => hd (hgr.symm.trans hh)
        simp only [if_neg h1, if_neg hd]
        ring
    · rw [if_neg hgr, dayTotal_cons, dayTotal_cons, ih]
      ring

theorem dayTotal_foldl (rs : List EnergyReading) (acc : List DayAgg)
    (d : Nat × Nat × Nat) :
    dayTotal d (rs.foldl addToGroups acc) =
      dayTotal d acc +
        ((rs.filter (fun r => dayKey r == d)).map (·.energy_consumption_kwh)).sum := by
  induction rs generalizing acc with
  | nil => simp
  | cons r rest ih =>
    rw [List.foldl_cons, ih, dayTotal_addToGroups]
    by_cases h : dayKey r = d
    · simp [List.filter_cons, h]
      ring
    · simp [List.filter_cons, h]

theorem dayTotal_perm {l1 l2 : List DayAgg} (h : List.Perm l1 l2) (d : Nat × Nat × Nat) :
    dayTotal d l1 = dayTotal d l2 :=
  List.Perm.sum_eq ((h.filter _).map _)

theorem filter_day_eq_self {l : List DayAgg} {b : DayAgg}
    (h : (l.map (·.day)).Nodup) (hb : b ∈ l) :
    l.filter (fun g => g.day == b.day) = [b] := by
  induction l with
  | nil => cases hb
  | cons x xs ih =>
    rw [List.map_cons, List.nodup_cons] at h
    rcases List.mem_cons.mp hb with rfl | hb
    · rw [List.filter_cons, if_pos (by simp)]
      have hnil : xs.filter (fun g => g.day == b.day) = [] := by
        rw [List.filter_eq_nil_iff]
        intro g hg hgb
        rw [beq_iff_eq] at hgb
        exact h.1 (by rw [← hgb]; exact List.mem_map_of_mem _ hg)
      rw [hnil]
    · have hx : ¬(x.day == b.day) = true := by
        simp only [beq_iff_eq]
        intro heq
        exact h.1 (by rw [heq]; exact List.mem_map_of_mem _ hb)
      rw [List.filter_cons, if_neg hx]
      exact ih h.2 hb

theorem bucket_total (rs : List EnergyReading) {b : DayAgg}
    (hb : b ∈ sortAggs (groupByDay rs)) :
    b.total_energy_consumed =
      ((rs.filter (fun r => dayKey r == b.day)).map (·.energy_consumption_kwh)).sum := by
  have hperm := sortAggs_perm (groupByDay rs)
  have hnd : ((groupByDay rs).map (·.day)).Nodup := nodup_days_foldl rs [] (by simp)
  have hnd2 : ((sortAggs (groupByDay rs)).map (·.day)).Nodup :=
    ((hperm.map _).nodup_iff).mpr hnd
  have h1 : dayTotal b.day (sortAggs (groupByDay rs)) = b.total_energy_consumed := by
    rw [dayTotal, filter_day_eq_self hnd2 hb]
    simp
  have h2 : dayTotal b.day (sortAggs (groupByDay rs)) = dayTotal b.day (groupByDay rs) :=
    dayTotal_perm hperm _
  have h3 := dayTotal_foldl rs [] b.day
  rw [← h1, h2, groupByDay, h3, dayTotal_nil, zero_add]

end EnergyRouter

/-- Claim C5: the daily-statistics output has exactly one bucket per
calendar day that has at least one reading (days without readings are
omitted, and bucket days are duplicate-free), the buckets are ordered
strictly ascending by date, and each bucket's total consumption is the sum
of consumption over that day's readings only. -/
theorem daily_stats_buckets (rs : List EnergyRouter.EnergyReading) :
    ((EnergyRouter.get_user_daily_stats rs).map (·.day)).Nodup ∧
    (∀ d, d ∈ (EnergyRouter.get_user_daily_stats rs).map (·.day) ↔
      ∃ r ∈ rs, EnergyRouter.dayKey r = d) ∧
    ((EnergyRouter.get_user_daily_stats rs).map (·.day)).Pairwise
      (fun a b => EnergyRouter.dayLt a b = true) ∧
    ∀ b ∈ EnergyRouter.get_user_daily_stats rs,
      b.total_energy_consumed =
        ((rs.filter (fun r => EnergyRouter.dayKey r == b.day)).map
          (·.energy_consumption_kwh)).sum := by
  have hdays : (EnergyRouter.get_user_daily_stats rs).map (·.day)
      = (EnergyRouter.sortAggs (EnergyRouter.groupByDay rs)).map (·.day) := by
    simp [EnergyRouter.get_user_daily_stats, List.map_map, Function.comp,
      EnergyRouter.toDailyStats]
  have hnd : ((EnergyRouter.groupByDay rs).map (·.day)).Nodup :=
    EnergyRouter.nodup_days_foldl rs [] (by simp)
  have hperm := EnergyRouter.sortAggs_perm (EnergyRouter.groupByDay rs)
  refine ⟨?_, ?_, ?_, ?_⟩
  · rw [hdays]
    exact ((hperm.map _).nodup_iff).mpr hnd
  · intro d
    rw [hdays, (hperm.map _).mem_iff, EnergyRouter.groupByDay,
      EnergyRouter.mem_days_foldl]
    simp [eq_comm]
  · rw [hdays, List.pairwise_map]
    exact EnergyRouter.sortAggs_pairwise _ hnd
  · intro b hb
    obtain ⟨g, hg, rfl⟩ := List.mem_map.mp hb
    simpa [EnergyRouter.toDailyStats] using EnergyRouter.bucket_total rs hg

/-- Witness for claim C5 at a concrete three-day reading list. -/
theorem daily_stats_buckets_witness :
    (2024, 3, 3) ∈ (EnergyRouter.get_user_daily_stats sampleDayReadings).map (·.day) ∧
    ((EnergyRouter.get_user_daily_stats sampleDayReadings).map (·.day)).Nodup := by
  have h := daily_stats_buckets sampleDayReadings
  refine ⟨(h.2.1 (2024, 3, 3)).mpr ?_, h.1⟩
  refine ⟨{ device_id := 1, year := 2024, month := 3, day := 3
            power_consumption_watts := 100, energy_consumption_kwh := 1
            energy_production_kwh := 0, total_cost := none }, ?_, rfl⟩
  simp [sampleDayReadings]

/-- Claim C6 (code bug): a reading payload with negative consumption,
negative cost and humidity 150 is not rejected at the creation boundary —
`create_energy_data` accepts it, stores the row unchanged and updates the
denormalized rolling counters with the negative value (10 + (−5) = 5). -/
theorem negative_reading_accepted_eval :
    EnergyRouter.create_energy_data (some sampleDevice) 10 0 negativePayload
      = Except.ok
          { stored := negativePayload
            device :=
              { sampleDevice with
                total_energy_consumed := 5
                total_energy_produced := 0
                current_power_draw := 50
                last_energy_reading := some 1000 }
            user_total_energy_consumed := 5
            user_total_energy_produced := 0 } := by
  norm_num [EnergyRouter.create_energy_data, sampleDevice, negativePayload]

/-- Claim C7: whenever the external AI function is unavailable or its
output fails to parse, the recommendations call still returns the static
fallback payload: a non-empty list of recommendation strings and an
efficiency score in [0, 100]; the failure is never propagated. -/
theorem fallback_on_ai_failure (client_available : Bool)
    (ai_response : Option OpenAIService.RecommendationResult)
    (devices : List OpenAIService.DeviceInfo)
    (h : client_available = false ∨ ai_response = none) :
    OpenAIService.get_energy_recommendations client_available ai_response devices
        = OpenAIService.get_fallback_recommendations devices ∧
    (OpenAIService.get_energy_recommendations client_available ai_response
        devices).recommendations ≠ [] ∧
    0 ≤ (OpenAIService.get_energy_recommendations client_available ai_response
        devices).efficiency_score ∧
    (OpenAIService.get_energy_recommendations client_available ai_response
        devices).efficiency_score ≤ 100 := by
  have hfb : OpenAIService.get_energy_recommendations client_available
      ai_response devices = OpenAIService.get_fallback_recommendations devices := by
    rcases h with rfl | rfl
    · rfl
    · cases client_available <;> rfl
  refine ⟨hfb, ?_, ?_, ?_⟩
  · rw [hfb]
    simp only [OpenAIService.get_fallback_recommendations]
    exact List.cons_ne_nil _ _
  · rw [hfb]
    norm_num [OpenAIService.get_fallback_recommendations]
  · rw [hfb]
    norm_num [OpenAIService.get_fallback_recommendations]

/-- Witness for claim C7 with the client unavailable. -/
theorem fallback_on_ai_failure_witness :
    (OpenAIService.get_energy_recommendations false none []).recommendations ≠ [] ∧
    0 ≤ (OpenAIService.get_energy_recommendations false none []).efficiency_score ∧
    (OpenAIService.get_energy_recommendations false none []).efficiency_score ≤ 100 := by
  have h := fallback_on_ai_failure false none [] (Or.inl rfl)
  exact ⟨h.2.1, h.2.2.1, h.2.2.2⟩

/-- Claim C9: in the raw-Mongo variant, when the target user/device exists
but the `$set` leaves the stored document unchanged (`modified_count = 0`),
`update_user` and `update_device` fail with HTTP 400 "No changes made"
instead of returning the unchanged entity. -/
theorem no_change_update_rejected (u : EnergyRouter.UserDoc)
    (pu : EnergyRouter.UserUpdate) (d : EnergyRouter.DeviceDoc)
    (pd : EnergyRouter.DeviceUpdate) (now : Nat)
    (hu : EnergyRouter.applyUserUpdate u pu now = u)
    (hd : EnergyRouter.applyDeviceUpdate d pd now = d) :
    EnergyRouter.update_user (some u) pu now
        = Except.error (400, "No changes made") ∧
    EnergyRouter.update_device (some d) pd now
        = Except.error (400, "No changes made") := by
  constructor
  · simp [EnergyRouter.update_user, hu]
  · simp [EnergyRouter.update_device, hd]

/-- Witness for claim C9: an empty update payload sent at a moment whose
timestamp equals the stored `updated_at` modifies zero fields and is
rejected with 400. -/
theorem no_change_update_rejected_witness :
    EnergyRouter.update_user (some sampleUser) emptyUserUpdate 7
        = Except.error (400, "No changes made") ∧
    EnergyRouter.update_device (some sampleDevice) emptyDeviceUpdate 7
        = Except.error (400, "No changes made") :=
  no_change_update_rejected sampleUser emptyUserUpdate sampleDevice
    emptyDeviceUpdate 7 rfl rfl

/-- Claim C10 (counterexample): a device that stores
`power_rating_watts = None` — what `create_device` writes for an unrated
device — does not get efficiency score 0: `device.get` returns the stored
`None`, `None > 0` raises `TypeError`, and the endpoint fails with HTTP
500, aborting the whole report. -/
theorem none_rating_efficiency_error :
    AIRecommendationsRouter.efficiency_score
        { power_rating_watts := some none, average_power := 0 }
      = Except.error (500, "Internal server error") ∧
    AIRecommendationsRouter.efficiency_score
        { power_rating_watts := some none, average_power := 0 }
      ≠ Except.ok 0 ∧
    AIRecommendationsRouter.overall_efficiency_score
        [{ power_rating_watts := some none, average_power := 0 }]
      = Except.error (500, "Internal server error") := by
  refine ⟨rfl, ?_, rfl⟩
  simp [AIRecommendationsRouter.efficiency_score,
    AIRecommendationsRouter.powerRatingGet]

/-- Claim C10 (amended): when every device's `power_rating_watts` resolves
to a number under `device.get` (a numeric stored rating, or the key absent
so the default 0 applies), the report succeeds, each per-device
`efficiency_score` — the clamped formula for a positive rating, 0
otherwise — lies in [0, 100], and so does the overall score, the
arithmetic mean of the device scores (0 with no devices). -/
theorem efficiency_scores_in_range_amended
    (devices : List AIRecommendationsRouter.DeviceEfficiencyInput)
    (h : ∀ dev ∈ devices, AIRecommendationsRouter.powerRatingGet dev ≠ none) :
    ∃ scores : List ℚ,
      AIRecommendationsRouter.device_scores devices = Except.ok scores ∧
      (∀ s ∈ scores, 0 ≤ s ∧ s ≤ 100) ∧
      ∃ overall : ℚ,
        AIRecommendationsRouter.overall_efficiency_score devices
          = Except.ok overall ∧
        0 ≤ overall ∧ overall ≤ 100 := by
  have hscore : ∀ dev : AIRecommendationsRouter.DeviceEfficiencyInput,
      AIRecommendationsRouter.powerRatingGet dev ≠ none →
      ∃ s : ℚ, AIRecommendationsRouter.efficiency_score dev = Except.ok s ∧
        0 ≤ s ∧ s ≤ 100 := by
    intro dev hdev
    cases hpr : AIRecommendationsRouter.powerRatingGet dev with
    | none => exact absurd hpr hdev
    | some power_rating =>
        refine ⟨if 0 < power_rating then
            min 100 (max 0
              ((power_rating - dev.average_power) / power_rating * 100))
          else 0, ?_, ?_, ?_⟩
        · simp [AIRecommendationsRouter.efficiency_score, hpr]
        · by_cases h0 : 0 < power_rating
          · rw [if_pos h0]
            exact le_min (by norm_num) (le_max_left 0 _)
          · rw [if_neg h0]
        · by_cases h0 : 0 < power_rating
          · rw [if_pos h0]
            exact min_le_left _ _
          · rw [if_neg h0]
            norm_num
  have hlist : ∀ l : List AIRecommendationsRouter.DeviceEfficiencyInput,
      (∀ dev ∈ l, AIRecommendationsRouter.powerRatingGet dev ≠ none) →
      ∃ scores : List ℚ,
        AIRecommendationsRouter.device_scores l = Except.ok scores ∧
        ∀ s ∈ scores, 0 ≤ s ∧ s ≤ 100 := by
    intro l
    induction l with
    | nil => exact fun _ => ⟨[], rfl, by simp⟩
    | cons dev rest ih =>
        intro hl
        obtain ⟨s, hs, hs0, hs100⟩ :=
          hscore dev (hl dev (List.mem_cons_self dev rest))
        obtain ⟨scores, hsc, hbound⟩ :=
          ih fun d hd => hl d (List.mem_cons_of_mem dev hd)
        refine ⟨s :: scores, ?_, ?_⟩
        · simp [AIRecommendationsRouter.device_scores, hs, hsc]
        · intro x hx
          rcases List.mem_cons.mp hx with rfl | hx
          · exact ⟨hs0, hs100⟩
          · exact hbound x hx
  obtain ⟨scores, hsc, hbound⟩ := hlist devices h
  refine ⟨scores, hsc, hbound,
    if scores.isEmpty then 0 else scores.sum / (scores.length : ℚ), ?_, ?_, ?_⟩
  · simp [AIRecommendationsRouter.overall_efficiency_score, hsc]
  · by_cases he : scores.isEmpty
    · rw [if_pos he]
    · rw [if_neg he]
      exact div_nonneg
        (List.sum_nonneg fun x hx => (hbound x hx).1) (Nat.cast_nonneg _)
  · by_cases he : scores.isEmpty
    · rw [if_pos he]
      norm_num
    · rw [if_neg he]
      have hlen0 : scores.length ≠ 0 := by
        intro hh
        exact he (List.isEmpty_iff.mpr (List.length_eq_zero.mp hh))
      have hlen : (0 : ℚ) < (scores.length : ℚ) := by
        exact_mod_cast Nat.pos_of_ne_zero hlen0
      rw [div_le_iff₀ hlen]
      calc scores.sum
          ≤ scores.length • (100 : ℚ) :=
            List.sum_le_card_nsmul _ _ fun x hx => (hbound x hx).2
        _ = 100 * (scores.length : ℚ) := by rw [nsmul_eq_mul]; ring

/-- Witness for the amended claim C10 at a single device rated 2000 W
averaging 600 W: the report succeeds with score 70, inside [0, 100]. -/
theorem efficiency_scores_in_range_amended_witness :
    AIRecommendationsRouter.overall_efficiency_score
        [{ power_rating_watts := some (some 2000), average_power := 600 }]
      = Except.ok 70 ∧
    (0 : ℚ) ≤ 70 ∧ (70 : ℚ) ≤ 100 := by
  obtain ⟨scores, hsc, hbound, overall, hov, h0, h100⟩ :=
    efficiency_scores_in_range_amended
      [{ power_rating_watts := some (some 2000), average_power := 600 }]
      (by
        intro dev hdev
        rw [List.mem_singleton.mp hdev]
        simp [AIRecommendationsRouter.powerRatingGet])
  have hov70 : AIRecommendationsRouter.overall_efficiency_score
      [{ power_rating_watts := some (some 2000), average_power := 600 }]
      = Except.ok 70 := by
    norm_num [AIRecommendationsRouter.overall_efficiency_score,
      AIRecommendationsRouter.device_scores,
      AIRecommendationsRouter.efficiency_score,
      AIRecommendationsRouter.powerRatingGet, min_def, max_def]
  have h70 : overall = 70 := by
    rw [hov] at hov70
    exact Except.ok.inj hov70
  exact ⟨hov70, h70 ▸ h0, h70 ▸ h100⟩
